import Mathlib

/-!
Shallow embedding of the camera-matrix screen (`src/js/multi-cam-view.js`):
the camera registry row loader, the scene selector (`loadScene`), the glitch
scheduler (`triggerGlitch` / `stopGlitch`), the lost-signal static noise
generator (`startLostSignalEffect` / `stopLostSignalEffect` / `drawNoise`)
and the pan toggle handler, together with theorems checking the spec's
claims about them.

JS numbers are modelled by `ℚ` (all arithmetic performed by this code is
exact on rationals), timer / animation-frame handles by `ℕ`, and the
browser's pending-callback queues by explicit lists threaded through the
state, so that "at most one pending timeout" is a provable statement.
-/

namespace MultiCam

/-! ## JS numeric parsing (`parseFloat` / `parseInt` on plain decimal cells)

Models the ECMAScript builtins on the inputs the sheet can hold: optional
leading whitespace, an optional sign, then a longest prefix of digits
(`parseInt`) or digits with an optional fractional part (`parseFloat`).
`none` stands for `NaN`. -/

/-- Longest leading run of decimal digits of a character list, with the rest. -/
def takeDigits : List Char → (List Char × List Char)
  | [] => ([], [])
  | c :: cs =>
    if c.isDigit then
      let p := takeDigits cs
      (c :: p.1, p.2)
    else ([], c :: cs)

/-- Value of a digit string read in base 10. -/
def digitsToNat (ds : List Char) : ℕ :=
  ds.foldl (fun acc c => acc * 10 + (c.toNat - 48)) 0

/-- Splits an optional leading `+` / `-` sign off a character list. -/
def splitSign : List Char → (ℤ × List Char)
  | '-' :: cs => (-1, cs)
  | '+' :: cs => (1, cs)
  | cs => (1, cs)

/-- `parseInt(s)` on a plain decimal cell; `none` models `NaN`. -/
def jsParseInt (s : String) : Option ℤ :=
  let cs := s.data.dropWhile (·.isWhitespace)
  let p := splitSign cs
  let d := takeDigits p.2
  if d.1 = [] then none else some (p.1 * digitsToNat d.1)

/-- `parseFloat(s)` on a plain decimal cell; `none` models `NaN`. -/
def jsParseFloat (s : String) : Option ℚ :=
  let cs := s.data.dropWhile (·.isWhitespace)
  let p := splitSign cs
  let d := takeDigits p.2
  let f : List Char × List Char :=
    match d.2 with
    | '.' :: r => takeDigits r
    | _ => ([], d.2)
  if d.1 = [] ∧ f.1 = [] then none
  else some ((p.1 : ℚ) * ((digitsToNat d.1 : ℚ) + (digitsToNat f.1 : ℚ) / 10 ^ f.1.length))

/-- JS `x || d` applied to a `parseFloat` result: the fallback is taken when
the parse produced `NaN` (`none`) or the falsy number `0`. -/
def jsNumOr (p : Option ℚ) (d : ℚ) : ℚ :=
  match p with
  | none => d
  | some v => if v = 0 then d else v

/-- JS `x || d` applied to a `parseInt` result (fallback on `NaN` or `0`). -/
def jsIntOr (p : Option ℤ) (d : ℤ) : ℤ :=
  match p with
  | none => d
  | some v => if v = 0 then d else v

/-- JS `s || d` on strings: the empty string is falsy. -/
def jsStrOr (s d : String) : String :=
  if s = "" then d else s

/-! ## Camera registry rows (`loadCameras`, lines 129-153) -/

/-- One parsed sheet row as handed to the camera builder: the cell texts
under the lower-cased headers (missing cells already defaulted to `""` by
`parseSheetData`). -/
structure RawEntry where
  camid : String
  sectionCell : String
  location : String
  status : String
  distance : String
  hudtext : String
  imageurl : String
  panenabled : String
  panduration : String
  glitchminms : String
  glitchmaxms : String
deriving DecidableEq

/-- A camera descriptor as stored in the registry (`cameras[camId]`). -/
structure Camera where
  id : String
  sectionName : String
  location : String
  status : String
  distance : String
  hudText : String
  imageUrl : String
  panEnabled : Bool
  panDuration : ℚ
  glitchMinMs : ℤ
  glitchMaxMs : ℤ
deriving DecidableEq

/-- The camera record built from one sheet row (`loadCameras`, lines 132-144). -/
def mkCamera (e : RawEntry) : Camera :=
  { id := e.camid
    sectionName := jsStrOr e.sectionCell "UNKNOWN"
    location := jsStrOr e.location "Unknown Location"
    status := (jsStrOr e.status "OFFLINE").toUpper
    distance := jsStrOr e.distance "--"
    hudText := jsStrOr e.hudtext "CAMERA FEED"
    imageUrl := e.imageurl
    panEnabled := e.panenabled = "true" || e.panenabled = "TRUE"
    panDuration := jsNumOr (jsParseFloat e.panduration) 7
    glitchMinMs := jsIntOr (jsParseInt e.glitchminms) 400
    glitchMaxMs := jsIntOr (jsParseInt e.glitchmaxms) 1200 }

/-! ## Glitch scheduler delay (`triggerGlitch`, line 489) -/

/-- The delay passed to `setTimeout` by `schedule()`:
`Math.random() * (max - min) + min` with `r` the drawn random number. -/
def glitchDelay (lo hi : ℤ) (r : ℚ) : ℚ :=
  r * ((hi : ℚ) - (lo : ℚ)) + (lo : ℚ)

/-! ## Static noise generator (`startLostSignalEffect`, lines 375-459)

The low-res pixel buffer `data` belongs to `ctx.createImageData(...)`: a
`Uint8ClampedArray`, four entries (R,G,B,A) per pixel, pixel `(x, y)` at
flat index `(y*w + x)*4`.  Every store into it clamps the written number to
`[0, 255]` and rounds to the nearest integer, ties to even (ECMAScript
`ToUint8Clamp`), so the buffer always holds integers.  Each pass of
`drawNoise` reads only values the same pass has not yet overwritten, so the
imperative loops are rendered pointwise: a pass is a function on flat-index
byte frames `FrameQ := ℕ → ℤ` whose stores go through the quantiser
`clamp8`, materialised into a `List ℤ` of length `w*h*4` when a frame is
stored or compared.  (`FrameF := ℕ → ℚ` states the band arithmetic over
arbitrary channel values; on the integer channels the program actually
holds, that arithmetic is computed and stored exactly.) -/

/-- Round to the nearest integer, ties to even, as ECMAScript
`ToUint8Clamp` does between its clamping bounds. -/
def roundTiesEven (x : ℚ) : ℤ :=
  if x - ⌊x⌋ < 1/2 then ⌊x⌋
  else if 1/2 < x - ⌊x⌋ then ⌊x⌋ + 1
  else if 2 ∣ ⌊x⌋ then ⌊x⌋ else ⌊x⌋ + 1

/-- A store into a `Uint8ClampedArray` entry (ECMAScript `ToUint8Clamp`):
clamp to `[0, 255]`, round to the nearest integer, ties to even. -/
def clamp8 (x : ℚ) : ℤ :=
  if x ≤ 0 then 0
  else if 255 ≤ x then 255
  else roundTiesEven x

/-- A frame over arbitrary (unquantised) channel values. -/
def FrameF : Type := ℕ → ℚ

/-- Materialises a rational frame function into a `w*h*4`-entry list. -/
def renderList (w h : ℕ) (f : FrameF) : List ℚ :=
  (List.range (w * h * 4)).map f

/-- A frame of the byte buffer: integer channel values by flat index. -/
def FrameQ : Type := ℕ → ℤ

/-- Materialises a byte frame function into a `w*h*4`-entry list. -/
def renderListQ (w h : ℕ) (f : FrameQ) : List ℤ :=
  (List.range (w * h * 4)).map f

/-- Base static pass (lines 408-412): every pixel gets the grayscale value
`100 + Math.random()*70` stored (hence byte-quantised) identically into all
three color channels, and `255` stored into alpha; the random stream `rs`
is indexed by pixel number. -/
def baseQ (rs : ℕ → ℚ) : FrameQ :=
  fun i => if i % 4 = 3 then clamp8 255 else clamp8 (100 + rs (i / 4) * 70)

/-- Band position (line 415): `Math.floor((t * 20) % smallH)`. -/
def jsMod (a b : ℚ) : ℚ :=
  a - b * ⌊a / b⌋

/-- Vertical position of the drifting luminance band. -/
def bandCenter (t : ℚ) (h : ℕ) : ℤ :=
  ⌊jsMod (t * 20) (h : ℚ)⌋

/-- Drifting luminance band pass (lines 415-424), stated over arbitrary
channel values: rows `bandY-3 ≤ y < bandY+3` that lie inside the buffer get
`+10` on each color channel, clamped by `Math.min(255, ·)`; alpha
untouched. -/
def bandF (w : ℕ) (bandY : ℤ) (f : FrameF) : FrameF :=
  fun i =>
    if i % 4 ≤ 2 ∧ bandY - 3 ≤ ((i / 4 / w : ℕ) : ℤ) ∧ ((i / 4 / w : ℕ) : ℤ) < bandY + 3
    then min 255 (f i + 10)
    else f i

/-- The band pass as it acts on the byte buffer: the read channel is an
integer, `min(255, v + 10)` is computed exactly, and the store quantises
(the identity on in-range integers). -/
def bandQ (w : ℕ) (bandY : ℤ) (f : FrameQ) : FrameQ :=
  fun i =>
    if i % 4 ≤ 2 ∧ bandY - 3 ≤ ((i / 4 / w : ℕ) : ℤ) ∧ ((i / 4 / w : ℕ) : ℤ) < bandY + 3
    then clamp8 ((min 255 (f i + 10) : ℤ) : ℚ)
    else f i

/-- Speckle positions (lines 427-431): `floor(w*h*0.002)` pixels at
coordinates `(floor(r*w), floor(r'*h))` drawn from the stream `sp`. -/
def specklePts (w h : ℕ) (sp : ℕ → ℚ) : List (ℕ × ℕ) :=
  (List.range (Int.toNat ⌊(w : ℚ) * (h : ℚ) * (0.002 : ℚ)⌋)).map
    fun s => (Int.toNat ⌊sp (2 * s) * (w : ℚ)⌋, Int.toNat ⌊sp (2 * s + 1) * (h : ℚ)⌋)

/-- Speckle pass (lines 428-433): the three color channels of each chosen
pixel are forced to pure white (the store of `255`). -/
def speckleQ (w : ℕ) (pts : List (ℕ × ℕ)) (f : FrameQ) : FrameQ :=
  fun i =>
    if i % 4 ≤ 2 ∧ pts.any (fun pq => pq.2 * w + pq.1 = i / 4)
    then clamp8 255
    else f i

/-- The temporal blend coefficient (line 437): `const blend = 0.85`. -/
def blendFactor : ℚ := 0.85

/-- The byte buffer of one `drawNoise` call before the temporal blend:
base static, then luminance band, then speckles. -/
def curFrameQ (w h : ℕ) (rs : ℕ → ℚ) (pts : List (ℕ × ℕ)) (bandY : ℤ) : List ℤ :=
  renderListQ w h (speckleQ w pts (bandQ w bandY (baseQ rs)))

/-- Temporal blend pass (lines 436-443): each color channel receives the
store of `cur*(1-blend) + prev*blend` — byte-quantised by the
`Uint8ClampedArray` write; alpha entries are not written. -/
def blendQ (cur prev : List ℤ) : List ℤ :=
  (List.range cur.length).map fun i =>
    if i % 4 ≤ 2
    then clamp8 ((cur.getD i 0 : ℚ) * (1 - blendFactor) + (prev.getD i 0 : ℚ) * blendFactor)
    else cur.getD i 0

/-- The byte buffer written (and then copied into `prev` by
`prev = new Uint8ClampedArray(data)`) by one non-skipped `drawNoise` call:
the current frame, blended with the previous rendered frame when one exists
of matching size (lines 408-444). -/
def renderedOutQ (w h : ℕ) (rs sp : ℕ → ℚ) (bandY : ℤ) (prev : Option (List ℤ)) :
    List ℤ :=
  let cur := curFrameQ w h rs (specklePts w h sp) bandY
  match prev with
  | some p => if p.length = cur.length then blendQ cur p else cur
  | none => cur

/-- Mutable state of one noise-generator instance: the closure variables
`last`, `t` and `prev` of `startLostSignalEffect` (lines 393-395); `prev`
holds the byte-quantised copy of the last rendered buffer. -/
structure NoiseState where
  last : ℚ
  t : ℚ
  prev : Option (List ℤ)
deriving DecidableEq

/-- Fresh closure state created by each `startLostSignalEffect` call:
`last = 0`, `t = 0`, `prev = null`. -/
def NoiseState.start : NoiseState :=
  { last := 0, t := 0, prev := none }

/-- Frame pacing bound (lines 391-392): `1000 / 24` milliseconds. -/
def frameInterval : ℚ := 1000 / 24

/-- One `drawNoise(now)` callback (lines 397-456): skip when called less than
`frameInterval` after the last rendered frame, otherwise advance `t`, render,
and remember the rendered buffer as `prev`.  Returns the new closure state
and the buffer drawn this call, if any. -/
def drawNoiseStep (w h : ℕ) (rs sp : ℕ → ℚ) (now : ℚ) (st : NoiseState) :
    NoiseState × Option (List ℤ) :=
  if now - st.last < frameInterval then (st, none)
  else
    let t := st.t + (now - st.last) / 1000
    let out := renderedOutQ w h rs sp (bandCenter t h) st.prev
    ({ last := now, t := t, prev := some out }, some out)

/-! ## Viewer session state and the scene selector (`loadScene`, lines 221-366)

The module-level mutable variables (`activeId`, `panPaused`, `panNode`,
`glitchTimer`, `lostSignalAnimationId`), the DOM pieces the claims talk
about (the viewport children, the labels, the pan button text) and the
browser's pending `setTimeout` / `requestAnimationFrame` queues are
gathered into one explicit state record.  Handles are allocated from a
counter starting at 1 (browser timer ids are positive, so the JS truthiness
tests on stored handles are the `Option` tests here). -/

/-- A presentation mounted into the viewport.  `pan` carries the animation
duration when the `pan` class was applied (camera's `panEnabled`). -/
inductive Media where
  | image (src : String) (alt : String) (pan : Option ℚ)
  | video (src : String) (pan : Option ℚ)
  | lostSignal (canvasW canvasH : ℕ)
deriving DecidableEq

/-- The whole mutable viewer-session state. -/
structure Session where
  activeId : Option String
  panPaused : Bool
  panNode : Option Media
  /-- `animationPlayState` of the current pan node, when one exists. -/
  panPlayState : String
  glitchTimer : Option ℕ
  lostSignalAnimationId : Option ℕ
  /-- Whether the glitch overlay currently has the `show` class. -/
  glitchShow : Bool
  /-- Children of the viewport element `#view`. -/
  view : List Media
  label : String
  stateText : String
  hud : String
  /-- Text of the `#togglePan` button. -/
  toggleLabel : String
  /-- Closure state of the currently installed noise generator. -/
  noise : NoiseState
  /-- Messages passed to `console.error`, newest first. -/
  errorLog : List String
  /-- The `min` / `max` bounds the active glitch schedule closed over. -/
  glitchLo : ℤ
  glitchHi : ℤ
  /-- Every delay ever passed to `setTimeout` by `schedule()`, newest first. -/
  scheduledDelays : List ℚ
  /-- Handles of `setTimeout` callbacks the browser still holds. -/
  pendingTimeouts : List ℕ
  /-- Handles of `requestAnimationFrame` callbacks the browser still holds. -/
  pendingFrames : List ℕ
  /-- Next handle the browser will allocate. -/
  nextHandle : ℕ
  /-- `viewEl.offsetWidth` / `offsetHeight` at mount time. -/
  viewW : ℕ
  viewH : ℕ
deriving DecidableEq

/-- `stopLostSignalEffect()` (lines 464-469): cancel the pending animation
frame, if any, and clear the stored handle. -/
def stopLostSignalEffect (st : Session) : Session :=
  match st.lostSignalAnimationId with
  | some hdl =>
    { st with pendingFrames := st.pendingFrames.erase hdl, lostSignalAnimationId := none }
  | none => st

/-- `startLostSignalEffect(canvas)` (lines 375-458): stop any existing
animation, create a fresh closure (`last = 0`, `t = 0`, `prev = null`) and
request the first animation frame. -/
def startLostSignalEffect (st : Session) : Session :=
  let st1 := stopLostSignalEffect st
  { st1 with
      noise := NoiseState.start
      pendingFrames := st1.nextHandle :: st1.pendingFrames
      lostSignalAnimationId := some st1.nextHandle
      nextHandle := st1.nextHandle + 1 }

/-- `stopGlitch()` (lines 498-504): cancel the pending glitch timeout, if
any, clear the stored handle, and remove the `show` class. -/
def stopGlitch (st : Session) : Session :=
  let st1 :=
    match st.glitchTimer with
    | some hdl =>
      { st with pendingTimeouts := st.pendingTimeouts.erase hdl, glitchTimer := none }
    | none => st
  { st1 with glitchShow := false }

/-- `triggerGlitch(min, max)` (lines 478-493): stop any existing schedule,
then `schedule()` one timeout at delay `glitchDelay min max r`. -/
def triggerGlitch (lo hi : ℤ) (r : ℚ) (st : Session) : Session :=
  let st1 := stopGlitch st
  { st1 with
      glitchLo := lo
      glitchHi := hi
      scheduledDelays := glitchDelay lo hi r :: st1.scheduledDelays
      pendingTimeouts := st1.nextHandle :: st1.pendingTimeouts
      glitchTimer := some st1.nextHandle
      nextHandle := st1.nextHandle + 1 }

/-- The placeholder image used when a camera has no media URL (line 318). -/
def placeholderNoFeed : String :=
  "https://placehold.co/1600x600/031018/1d5b72?text=NO+CAMERA+FEED"

/-- `cam.imageUrl && (endsWith .mp4 | .webm | .mov)` (lines 264-268); the
empty URL is falsy. -/
def isVideoUrl (u : String) : Bool :=
  u ≠ "" && (u.toLower.endsWith ".mp4" || u.toLower.endsWith ".webm"
    || u.toLower.endsWith ".mov")

/-- The media element built for a non-LOST-SIGNAL camera (lines 263-331):
a video element for `.mp4` / `.webm` / `.mov` URLs, else an image element
whose empty source falls back to the placeholder. -/
def mountMedia (cam : Camera) : Media :=
  if isVideoUrl cam.imageUrl then
    Media.video cam.imageUrl (if cam.panEnabled then some cam.panDuration else none)
  else
    Media.image (if cam.imageUrl = "" then placeholderNoFeed else cam.imageUrl)
      cam.location (if cam.panEnabled then some cam.panDuration else none)

/-- The viewport construction of `loadScene` (lines 236-335): a noise canvas
for LOST SIGNAL (with `panNode = null` and the noise effect started), else
the media element, which becomes the pan node.  A freshly created element's
animation play state is the CSS initial value `running`. -/
def mountPresentation (cam : Camera) (st : Session) : Session :=
  if cam.status = "LOST SIGNAL" then
    let cw := if st.viewW = 0 then 800 else st.viewW
    let ch := if st.viewH = 0 then 600 else st.viewH
    let st1 := { st with view := st.view ++ [Media.lostSignal cw ch], panNode := none }
    startLostSignalEffect st1
  else
    { st with
        panNode := some (mountMedia cam)
        panPlayState := "running"
        view := st.view ++ [mountMedia cam] }

/-- UI label updates of `loadScene` (lines 338-340). -/
def setLabels (cam : Camera) (st : Session) : Session :=
  { st with
      label := cam.location
      stateText := cam.status
      hud := cam.hudText ++ "  |  CAMERA: " ++ cam.id.toUpper }

/-- Pan-button reset of `loadScene` (lines 348-352): `panPaused = false`,
button text `PAUSE PAN`, and the pan node's play state set to `running`
when a pan node exists and the camera pans. -/
def resetPanState (cam : Camera) (st : Session) : Session :=
  let st1 := { st with panPaused := false, toggleLabel := "PAUSE PAN" }
  if st1.panNode.isSome && cam.panEnabled then { st1 with panPlayState := "running" }
  else st1

/-- Status-specific effects of `loadScene` (lines 355-362): always stop the
glitch schedule, then start one for FLICKER / INTERFERENCE / LOST SIGNAL. -/
def applyGlitchPolicy (cam : Camera) (r : ℚ) (st : Session) : Session :=
  let st1 := stopGlitch st
  if cam.status = "FLICKER" ∨ cam.status = "INTERFERENCE" ∨ cam.status = "LOST SIGNAL"
  then triggerGlitch cam.glitchMinMs cam.glitchMaxMs r st1
  else st1

/-- `loadScene(id)` (lines 221-366).  `cams` is the registry, `r` the random
number drawn by `schedule()` should a glitch be scheduled.  An unknown id
only logs `Camera <id> not found` and returns. -/
def loadScene (cams : String → Option Camera) (id : String) (r : ℚ) (st : Session) :
    Session :=
  match cams id with
  | none => { st with errorLog := ("Camera " ++ id ++ " not found") :: st.errorLog }
  | some cam =>
    let st1 := { st with activeId := some id }
    let st2 := stopLostSignalEffect st1
    let st3 := { st2 with view := [] }
    let st4 := mountPresentation cam st3
    let st5 := setLabels cam st4
    let st6 := resetPanState cam st5
    applyGlitchPolicy cam r st6

/-- The `togglePan` click handler (lines 552-560): flip `panPaused`, apply
the play state to the pan node when one exists, and relabel the button. -/
def togglePan (st : Session) : Session :=
  let st1 := { st with panPaused := !st.panPaused }
  let st2 :=
    if st1.panNode.isSome then
      { st1 with panPlayState := if st1.panPaused then "paused" else "running" }
    else st1
  { st2 with toggleLabel := if st2.panPaused then "RESUME PAN" else "PAUSE PAN" }

/-- The pending glitch timeout elapsing: the browser removes the callback
from its queue and runs `bump()` (lines 481-486), which re-adds the `show`
class and calls `schedule()` again with a fresh random `r`. -/
def fireGlitch (r : ℚ) (st : Session) : Session :=
  match st.pendingTimeouts with
  | [] => st
  | _ :: rest =>
    { st with
        scheduledDelays := glitchDelay st.glitchLo st.glitchHi r :: st.scheduledDelays
        pendingTimeouts := st.nextHandle :: rest
        glitchTimer := some st.nextHandle
        glitchShow := true
        nextHandle := st.nextHandle + 1 }

/-- The pending animation frame elapsing: the browser removes the callback
and runs `drawNoise(now)`, which updates the closure state and requests the
next frame (lines 397-456; both the skip and the render path reschedule
exactly once). -/
def frameTick (w h : ℕ) (rs sp : ℕ → ℚ) (now : ℚ) (st : Session) : Session :=
  match st.pendingFrames with
  | [] => st
  | _ :: rest =>
    { st with
        noise := (drawNoiseStep w h rs sp now st.noise).1
        pendingFrames := st.nextHandle :: rest
        lostSignalAnimationId := some st.nextHandle
        nextHandle := st.nextHandle + 1 }

/-- The operations a viewer session can undergo. -/
inductive Op where
  | load (id : String) (r : ℚ)
  | trigger (lo hi : ℤ) (r : ℚ)
  | stopG
  | startNoise
  | stopNoise
  | toggle
  | fireG (r : ℚ)
  | tick (w h : ℕ) (rs sp : ℕ → ℚ) (now : ℚ)

/-- One step of the session machine. -/
def stepOp (cams : String → Option Camera) (op : Op) (st : Session) : Session :=
  match op with
  | Op.load id r => loadScene cams id r st
  | Op.trigger lo hi r => triggerGlitch lo hi r st
  | Op.stopG => stopGlitch st
  | Op.startNoise => startLostSignalEffect st
  | Op.stopNoise => stopLostSignalEffect st
  | Op.toggle => togglePan st
  | Op.fireG r => fireGlitch r st
  | Op.tick w h rs sp now => frameTick w h rs sp now st

/-- A whole sequence of operations. -/
def runOps (cams : String → Option Camera) (ops : List Op) (st : Session) : Session :=
  ops.foldl (fun s op => stepOp cams op s) st

/-- The session state as the page starts: nothing selected, nothing pending,
first browser handle 1. -/
def startSession : Session :=
  { activeId := none
    panPaused := false
    panNode := none
    panPlayState := "running"
    glitchTimer := none
    lostSignalAnimationId := none
    glitchShow := false
    view := []
    label := "—"
    stateText := "—"
    hud := ""
    toggleLabel := "PAUSE PAN"
    noise := NoiseState.start
    errorLog := []
    glitchLo := 0
    glitchHi := 0
    scheduledDelays := []
    pendingTimeouts := []
    pendingFrames := []
    nextHandle := 1
    viewW := 800
    viewH := 600 }

/-! ## The single-pending-callback invariant -/

/-- The pending-handle list a stored handle accounts for. -/
def optList : Option ℕ → List ℕ
  | none => []
  | some hdl => [hdl]

/-- The browser holds exactly the callbacks whose handles the session still
stores: the pending `setTimeout` queue is the stored glitch-timer handle and
the pending `requestAnimationFrame` queue is the stored noise-animation
handle.  In particular at most one glitch timeout and at most one noise
frame are ever pending, and any callback that fires is the currently
registered one — never a stale one from a previous camera. -/
def EffectInv (st : Session) : Prop :=
  st.pendingTimeouts = optList st.glitchTimer
  ∧ st.pendingFrames = optList st.lostSignalAnimationId

/-! ## Concrete sample data used by the witnesses -/

/-- A pan-enabled ONLINE camera with an empty media URL. -/
def demoCam : Camera :=
  { id := "cam-1"
    sectionName := "SECTION A"
    location := "A-03 CORRIDOR (MAIN)"
    status := "ONLINE"
    distance := "14m"
    hudText := "ZOOM: 1.0x"
    imageUrl := ""
    panEnabled := true
    panDuration := 7
    glitchMinMs := 400
    glitchMaxMs := 1200 }

/-- An OFFLINE camera. -/
def demoOffline : Camera :=
  { demoCam with id := "cam-off", status := "OFFLINE", panEnabled := false }

/-- A FLICKER camera. -/
def demoFlicker : Camera :=
  { demoCam with id := "cam-fl", status := "FLICKER" }

/-- A two-camera registry. -/
def demoRegistry : String → Option Camera := fun s =>
  if s = "cam-1" then some demoCam
  else if s = "cam-off" then some demoOffline
  else if s = "cam-fl" then some demoFlicker
  else none

/-- A sheet row whose numeric cells all hold the text `0`. -/
def zeroEntry : RawEntry :=
  { camid := "cam-z"
    sectionCell := "SECTION A"
    location := "LAB"
    status := "ONLINE"
    distance := "2m"
    hudtext := "FEED"
    imageurl := ""
    panenabled := "false"
    panduration := "0"
    glitchminms := "0"
    glitchmaxms := "0" }

/-- A sheet row with ordinary parsable numeric cells. -/
def plainEntry : RawEntry :=
  { zeroEntry with
      camid := "cam-p"
      panduration := "7.5"
      glitchminms := "650"
      glitchmaxms := "abc" }

/-- A constant random stream. -/
def halfStream : ℕ → ℚ := fun _ => 1 / 2

/-! ## Projection lemmas for the effect operations -/

lemma stopLostSignalEffect_anim (st : Session) :
    (stopLostSignalEffect st).lostSignalAnimationId = none := by
  unfold stopLostSignalEffect
  cases hg : st.lostSignalAnimationId <;> simp [hg]

lemma stopGlitch_glitchTimer (st : Session) :
    (stopGlitch st).glitchTimer = none := by
  unfold stopGlitch
  cases hg : st.glitchTimer <;> simp [hg]

lemma stopGlitch_anim (st : Session) :
    (stopGlitch st).lostSignalAnimationId = st.lostSignalAnimationId := by
  unfold stopGlitch
  cases hg : st.glitchTimer <;> simp [hg]

lemma triggerGlitch_glitchTimer (lo hi : ℤ) (r : ℚ) (st : Session) :
    (triggerGlitch lo hi r st).glitchTimer = some (stopGlitch st).nextHandle := by
  rfl

lemma triggerGlitch_anim (lo hi : ℤ) (r : ℚ) (st : Session) :
    (triggerGlitch lo hi r st).lostSignalAnimationId = st.lostSignalAnimationId := by
  unfold triggerGlitch
  exact stopGlitch_anim st

lemma applyGlitchPolicy_anim (cam : Camera) (r : ℚ) (st : Session) :
    (applyGlitchPolicy cam r st).lostSignalAnimationId = st.lostSignalAnimationId := by
  unfold applyGlitchPolicy
  split_ifs <;> simp [triggerGlitch_anim, stopGlitch_anim]

lemma applyGlitchPolicy_glitchTimer_isSome (cam : Camera) (r : ℚ) (st : Session) :
    (applyGlitchPolicy cam r st).glitchTimer.isSome =
      (cam.status = "FLICKER" ∨ cam.status = "INTERFERENCE"
        ∨ cam.status = "LOST SIGNAL" : Bool) := by
  unfold applyGlitchPolicy
  split_ifs with hs <;> simp [triggerGlitch_glitchTimer, stopGlitch_glitchTimer, hs]

lemma applyGlitchPolicy_panPaused (cam : Camera) (r : ℚ) (st : Session) :
    (applyGlitchPolicy cam r st).panPaused = st.panPaused := by
  unfold applyGlitchPolicy triggerGlitch stopGlitch
  dsimp only
  split_ifs <;> (cases hg : st.glitchTimer <;> simp [hg])

lemma applyGlitchPolicy_panNode (cam : Camera) (r : ℚ) (st : Session) :
    (applyGlitchPolicy cam r st).panNode = st.panNode := by
  unfold applyGlitchPolicy triggerGlitch stopGlitch
  dsimp only
  split_ifs <;> (cases hg : st.glitchTimer <;> simp [hg])

lemma applyGlitchPolicy_panPlayState (cam : Camera) (r : ℚ) (st : Session) :
    (applyGlitchPolicy cam r st).panPlayState = st.panPlayState := by
  unfold applyGlitchPolicy triggerGlitch stopGlitch
  dsimp only
  split_ifs <;> (cases hg : st.glitchTimer <;> simp [hg])

lemma applyGlitchPolicy_toggleLabel (cam : Camera) (r : ℚ) (st : Session) :
    (applyGlitchPolicy cam r st).toggleLabel = st.toggleLabel := by
  unfold applyGlitchPolicy triggerGlitch stopGlitch
  dsimp only
  split_ifs <;> (cases hg : st.glitchTimer <;> simp [hg])

lemma applyGlitchPolicy_view (cam : Camera) (r : ℚ) (st : Session) :
    (applyGlitchPolicy cam r st).view = st.view := by
  unfold applyGlitchPolicy triggerGlitch stopGlitch
  dsimp only
  split_ifs <;> (cases hg : st.glitchTimer <;> simp [hg])

lemma resetPanState_panPaused (cam : Camera) (st : Session) :
    (resetPanState cam st).panPaused = false := by
  unfold resetPanState
  dsimp only
  split_ifs <;> rfl

lemma resetPanState_toggleLabel (cam : Camera) (st : Session) :
    (resetPanState cam st).toggleLabel = "PAUSE PAN" := by
  unfold resetPanState
  dsimp only
  split_ifs <;> rfl

lemma resetPanState_panNode (cam : Camera) (st : Session) :
    (resetPanState cam st).panNode = st.panNode := by
  unfold resetPanState
  dsimp only
  split_ifs <;> rfl

lemma resetPanState_view (cam : Camera) (st : Session) :
    (resetPanState cam st).view = st.view := by
  unfold resetPanState
  dsimp only
  split_ifs <;> rfl

lemma resetPanState_anim (cam : Camera) (st : Session) :
    (resetPanState cam st).lostSignalAnimationId = st.lostSignalAnimationId := by
  unfold resetPanState
  dsimp only
  split_ifs <;> rfl

lemma resetPanState_panPlayState_on (cam : Camera) (st : Session)
    (hn : st.panNode.isSome = true) (hp : cam.panEnabled = true) :
    (resetPanState cam st).panPlayState = "running" := by
  unfold resetPanState
  dsimp only
  split_ifs with hcond
  · rfl
  · simp [hn, hp] at hcond

lemma mountPresentation_not_lost (cam : Camera) (st : Session)
    (hnl : cam.status ≠ "LOST SIGNAL") :
    mountPresentation cam st =
      { st with
          panNode := some (mountMedia cam)
          panPlayState := "running"
          view := st.view ++ [mountMedia cam] } := by
  unfold mountPresentation
  rw [if_neg hnl]

lemma togglePan_panPaused (st : Session) :
    (togglePan st).panPaused = !st.panPaused := by
  unfold togglePan
  dsimp only
  split_ifs <;> simp_all

lemma togglePan_toggleLabel (st : Session) :
    (togglePan st).toggleLabel = if !st.panPaused then "RESUME PAN" else "PAUSE PAN" := by
  unfold togglePan
  dsimp only
  split_ifs <;> simp_all

lemma togglePan_panPlayState_some (st : Session) (hn : st.panNode.isSome = true) :
    (togglePan st).panPlayState = if !st.panPaused then "paused" else "running" := by
  unfold togglePan
  dsimp only
  split_ifs <;> simp_all

/-! ### Preservation of the single-pending-callback invariant -/

lemma stopGlitch_inv (st : Session) (h : EffectInv st) : EffectInv (stopGlitch st) := by
  obtain ⟨h1, h2⟩ := h
  unfold stopGlitch
  cases hg : st.glitchTimer with
  | none =>
    dsimp only
    exact ⟨hg ▸ h1, h2⟩
  | some hdl =>
    dsimp only
    rw [hg] at h1
    refine ⟨?_, h2⟩
    rw [h1]
    simp [optList]

lemma stopLostSignalEffect_inv (st : Session) (h : EffectInv st) :
    EffectInv (stopLostSignalEffect st) := by
  obtain ⟨h1, h2⟩ := h
  unfold stopLostSignalEffect
  cases hg : st.lostSignalAnimationId with
  | none =>
    dsimp only
    exact ⟨h1, hg ▸ h2⟩
  | some hdl =>
    dsimp only
    rw [hg] at h2
    refine ⟨h1, ?_⟩
    rw [h2]
    simp [optList]

lemma startLostSignalEffect_inv (st : Session) (h : EffectInv st) :
    EffectInv (startLostSignalEffect st) := by
  have h' := stopLostSignalEffect_inv st h
  obtain ⟨h1, h2⟩ := h'
  have hanim := stopLostSignalEffect_anim st
  rw [hanim] at h2
  unfold startLostSignalEffect
  dsimp only
  exact ⟨h1, by rw [h2]; rfl⟩

lemma triggerGlitch_inv (lo hi : ℤ) (r : ℚ) (st : Session) (h : EffectInv st) :
    EffectInv (triggerGlitch lo hi r st) := by
  have h' := stopGlitch_inv st h
  obtain ⟨h1, h2⟩ := h'
  rw [stopGlitch_glitchTimer] at h1
  unfold triggerGlitch
  dsimp only
  exact ⟨by rw [h1]; rfl, h2⟩

lemma applyGlitchPolicy_inv (cam : Camera) (r : ℚ) (st : Session) (h : EffectInv st) :
    EffectInv (applyGlitchPolicy cam r st) := by
  unfold applyGlitchPolicy
  dsimp only
  split_ifs
  · exact triggerGlitch_inv _ _ _ _ (stopGlitch_inv st h)
  · exact stopGlitch_inv st h

lemma mountPresentation_inv (cam : Camera) (st : Session) (h : EffectInv st) :
    EffectInv (mountPresentation cam st) := by
  unfold mountPresentation
  dsimp only
  split_ifs
  all_goals first
    | (apply startLostSignalEffect_inv
       exact ⟨h.1, h.2⟩)
    | exact ⟨h.1, h.2⟩

lemma setLabels_inv (cam : Camera) (st : Session) (h : EffectInv st) :
    EffectInv (setLabels cam st) := by
  exact ⟨h.1, h.2⟩

lemma resetPanState_inv (cam : Camera) (st : Session) (h : EffectInv st) :
    EffectInv (resetPanState cam st) := by
  unfold resetPanState
  dsimp only
  split_ifs <;> exact ⟨h.1, h.2⟩

lemma togglePan_inv (st : Session) (h : EffectInv st) : EffectInv (togglePan st) := by
  unfold togglePan
  dsimp only
  split_ifs <;> exact ⟨h.1, h.2⟩

lemma loadScene_inv (cams : String → Option Camera) (id : String) (r : ℚ)
    (st : Session) (h : EffectInv st) : EffectInv (loadScene cams id r st) := by
  unfold loadScene
  cases hc : cams id with
  | none => exact ⟨h.1, h.2⟩
  | some cam =>
    dsimp only
    apply applyGlitchPolicy_inv
    apply resetPanState_inv
    apply setLabels_inv
    apply mountPresentation_inv
    exact stopLostSignalEffect_inv _ ⟨h.1, h.2⟩

lemma fireGlitch_inv (r : ℚ) (st : Session) (h : EffectInv st) :
    EffectInv (fireGlitch r st) := by
  obtain ⟨h1, h2⟩ := h
  unfold fireGlitch
  cases hp : st.pendingTimeouts with
  | nil =>
    dsimp only
    exact ⟨h1, h2⟩
  | cons hdl rest =>
    dsimp only
    rw [hp] at h1
    have hrest : rest = [] := by
      cases hg : st.glitchTimer with
      | none => rw [hg] at h1; simp [optList] at h1
      | some x =>
        rw [hg] at h1
        simp only [optList] at h1
        injection h1 with hh ht
    refine ⟨?_, h2⟩
    rw [hrest]
    rfl

lemma frameTick_inv (w h : ℕ) (rs sp : ℕ → ℚ) (now : ℚ) (st : Session)
    (hinv : EffectInv st) : EffectInv (frameTick w h rs sp now st) := by
  obtain ⟨h1, h2⟩ := hinv
  unfold frameTick
  cases hp : st.pendingFrames with
  | nil =>
    dsimp only
    exact ⟨h1, h2⟩
  | cons hdl rest =>
    dsimp only
    rw [hp] at h2
    have hrest : rest = [] := by
      cases hg : st.lostSignalAnimationId with
      | none => rw [hg] at h2; simp [optList] at h2
      | some x =>
        rw [hg] at h2
        simp only [optList] at h2
        injection h2 with hh ht
    refine ⟨h1, ?_⟩
    rw [hrest]
    rfl

lemma stepOp_inv (cams : String → Option Camera) (op : Op) (st : Session)
    (h : EffectInv st) : EffectInv (stepOp cams op st) := by
  cases op with
  | load id r => exact loadScene_inv cams id r st h
  | trigger lo hi r => exact triggerGlitch_inv lo hi r st h
  | stopG => exact stopGlitch_inv st h
  | startNoise => exact startLostSignalEffect_inv st h
  | stopNoise => exact stopLostSignalEffect_inv st h
  | toggle => exact togglePan_inv st h
  | fireG r => exact fireGlitch_inv r st h
  | tick w h' rs sp now => exact frameTick_inv w h' rs sp now st h

lemma runOps_inv (cams : String → Option Camera) (ops : List Op) (st : Session)
    (h : EffectInv st) : EffectInv (runOps cams ops st) := by
  induction ops generalizing st with
  | nil => exact h
  | cons op rest ih =>
    exact ih (stepOp cams op st) (stepOp_inv cams op st h)

/-- C2.  Whatever sequence of operations the session undergoes
(`loadScene`, `triggerGlitch`, `stopGlitch`, `startLostSignalEffect`,
`stopLostSignalEffect`, the pan toggle, and elapsing timers / animation
frames), the browser never holds more than one pending glitch timeout and
never more than one pending noise-animation frame, and every pending
callback is the one the session registered last: any handle still pending
is exactly the currently stored one, so a stale timer or frame from a
previously selected camera can never fire. -/
theorem C2_single_pending_callbacks (cams : String → Option Camera)
    (ops : List Op) (st : Session) (h : EffectInv st) :
    EffectInv (runOps cams ops st)
    ∧ (runOps cams ops st).pendingTimeouts.length ≤ 1
    ∧ (runOps cams ops st).pendingFrames.length ≤ 1
    ∧ (∀ hdl, hdl ∈ (runOps cams ops st).pendingTimeouts
        → (runOps cams ops st).glitchTimer = some hdl)
    ∧ (∀ hdl, hdl ∈ (runOps cams ops st).pendingFrames
        → (runOps cams ops st).lostSignalAnimationId = some hdl) := by
  have hrun := runOps_inv cams ops st h
  obtain ⟨h1, h2⟩ := hrun
  refine ⟨⟨h1, h2⟩, ?_, ?_, ?_, ?_⟩
  · rw [h1]
    cases (runOps cams ops st).glitchTimer <;> simp [optList]
  · rw [h2]
    cases (runOps cams ops st).lostSignalAnimationId <;> simp [optList]
  · intro hdl hmem
    rw [h1] at hmem
    cases hg : (runOps cams ops st).glitchTimer with
    | none => rw [hg] at hmem; simp [optList] at hmem
    | some x =>
      rw [hg] at hmem
      simp only [optList, List.mem_singleton] at hmem
      rw [hmem]
  · intro hdl hmem
    rw [h2] at hmem
    cases hg : (runOps cams ops st).lostSignalAnimationId with
    | none => rw [hg] at hmem; simp [optList] at hmem
    | some x =>
      rw [hg] at hmem
      simp only [optList, List.mem_singleton] at hmem
      rw [hmem]

/-- Witness for C2 on a concrete operation sequence that switches between
all three demo cameras, fires a glitch timeout, starts and stops effects. -/
theorem C2_single_pending_callbacks_witness :
    EffectInv startSession
    ∧ (runOps demoRegistry
        [Op.load "cam-fl" (1/2), Op.fireG (1/3), Op.startNoise,
          Op.load "cam-1" (1/4), Op.toggle, Op.startNoise, Op.stopG,
          Op.load "cam-off" (1/5), Op.stopNoise]
        startSession).pendingTimeouts.length ≤ 1
    ∧ (runOps demoRegistry
        [Op.load "cam-fl" (1/2), Op.fireG (1/3), Op.startNoise,
          Op.load "cam-1" (1/4), Op.toggle, Op.startNoise, Op.stopG,
          Op.load "cam-off" (1/5), Op.stopNoise]
        startSession).pendingFrames.length ≤ 1 := by
  have hc := C2_single_pending_callbacks demoRegistry
    [Op.load "cam-fl" (1/2), Op.fireG (1/3), Op.startNoise,
      Op.load "cam-1" (1/4), Op.toggle, Op.startNoise, Op.stopG,
      Op.load "cam-off" (1/5), Op.stopNoise]
    startSession ⟨rfl, rfl⟩
  exact ⟨⟨rfl, rfl⟩, hc.2.1, hc.2.2.1⟩

/-! ## C1: unknown camera id is a logged no-op -/

/-- C1.  Selecting an id absent from the registry changes nothing: the
active camera id, the pan-paused flag, the glitch timer, the noise-animation
handle, the pending browser callbacks and the displayed presentation all
keep their prior values, the pan node and its play state included; the only
effect is an error logged to the console. -/
theorem C1_unknown_id_noop (cams : String → Option Camera) (id : String) (r : ℚ)
    (st : Session) (h : cams id = none) :
    (loadScene cams id r st).activeId = st.activeId
    ∧ (loadScene cams id r st).panPaused = st.panPaused
    ∧ (loadScene cams id r st).glitchTimer = st.glitchTimer
    ∧ (loadScene cams id r st).lostSignalAnimationId = st.lostSignalAnimationId
    ∧ (loadScene cams id r st).view = st.view
    ∧ (loadScene cams id r st).panNode = st.panNode
    ∧ (loadScene cams id r st).panPlayState = st.panPlayState
    ∧ (loadScene cams id r st).label = st.label
    ∧ (loadScene cams id r st).toggleLabel = st.toggleLabel
    ∧ (loadScene cams id r st).pendingTimeouts = st.pendingTimeouts
    ∧ (loadScene cams id r st).pendingFrames = st.pendingFrames
    ∧ (loadScene cams id r st).errorLog
        = ("Camera " ++ id ++ " not found") :: st.errorLog := by
  unfold loadScene
  rw [h]
  exact ⟨rfl, rfl, rfl, rfl, rfl, rfl, rfl, rfl, rfl, rfl, rfl, rfl⟩

/-- Witness for C1 at the concrete registry and a genuinely missing id. -/
theorem C1_unknown_id_noop_witness :
    demoRegistry "nonexistent" = none
    ∧ (loadScene demoRegistry "nonexistent" (1/2) startSession).activeId
        = startSession.activeId
    ∧ (loadScene demoRegistry "nonexistent" (1/2) startSession).errorLog
        = ["Camera nonexistent not found"] :=
  ⟨by decide,
    (C1_unknown_id_noop demoRegistry "nonexistent" (1/2) startSession (by decide)).1,
    by
      have hc := C1_unknown_id_noop demoRegistry "nonexistent" (1/2) startSession
        (by decide)
      rw [hc.2.2.2.2.2.2.2.2.2.2.2]
      rfl⟩

/-! ## C3: glitch delays lie in the configured interval -/

/-- C3 counterexample.  With degenerate bounds `min = max = 400` — allowed
by the claim's `min ≤ max` — the scheduled delay is exactly `400`, which
fails the claimed strict upper bound `d < max`. -/
theorem C3_degenerate_bounds_counterexample :
    (400 : ℤ) ≤ 400 ∧ (0 : ℚ) ≤ 1 / 2 ∧ (1 / 2 : ℚ) < 1
    ∧ glitchDelay 400 400 (1 / 2) = ((400 : ℤ) : ℚ)
    ∧ ¬ glitchDelay 400 400 (1 / 2) < ((400 : ℤ) : ℚ) := by
  norm_num [glitchDelay]

/-- C3 (amended: `min < max`).  For strictly ordered bounds, every delay the
scheduler passes to its timer satisfies `min ≤ d < max`; in particular for
bounds 400 / 1200 every scheduled delay lies in `[400, 1200)`. -/
theorem C3_delay_in_bounds (lo hi : ℤ) (r : ℚ)
    (hlt : lo < hi) (h0 : 0 ≤ r) (h1 : r < 1) :
    ((lo : ℚ) ≤ glitchDelay lo hi r ∧ glitchDelay lo hi r < (hi : ℚ)) := by
  have hq : (lo : ℚ) < (hi : ℚ) := by exact_mod_cast hlt
  unfold glitchDelay
  constructor
  · nlinarith [mul_nonneg h0 (sub_nonneg.mpr hq.le)]
  · nlinarith [mul_lt_mul_of_pos_right h1 (sub_pos.mpr hq)]

/-- Witness for C3 at the spec's bounds 400 / 1200 and the draw `1/2`. -/
theorem C3_delay_in_bounds_witness :
    (400 : ℤ) < 1200 ∧ (0 : ℚ) ≤ 1 / 2 ∧ (1 / 2 : ℚ) < 1
    ∧ (((400 : ℤ) : ℚ) ≤ glitchDelay 400 1200 (1 / 2)
        ∧ glitchDelay 400 1200 (1 / 2) < ((1200 : ℤ) : ℚ)) :=
  ⟨by decide, by norm_num, by norm_num,
    C3_delay_in_bounds 400 1200 (1 / 2) (by decide) (by norm_num) (by norm_num)⟩

/-! ## C4: numeric cell fallbacks -/

/-- C4 counterexample.  The cell text `0` parses to the number `0`, yet the
loader replaces it with the defaults (`7`, `400`, `1200`), because the JS
`||` fallback also fires on the falsy parsed value `0` — not only on
unparsable cells as the claim states. -/
theorem C4_zero_cell_counterexample :
    jsParseFloat "0" = some 0 ∧ jsParseInt "0" = some 0
    ∧ (mkCamera zeroEntry).panDuration = 7 ∧ (mkCamera zeroEntry).panDuration ≠ 0
    ∧ (mkCamera zeroEntry).glitchMinMs = 400 ∧ (mkCamera zeroEntry).glitchMinMs ≠ 0
    ∧ (mkCamera zeroEntry).glitchMaxMs = 1200 := by
  have hf : jsParseFloat "0" = some 0 := by
    simp +decide [jsParseFloat, takeDigits, splitSign, digitsToNat]
  refine ⟨hf, by decide, ?_, ?_, by decide, by decide, by decide⟩
  · show jsNumOr (jsParseFloat "0") 7 = 7
    rw [hf]
    norm_num [jsNumOr]
  · show jsNumOr (jsParseFloat "0") 7 ≠ 0
    rw [hf]
    norm_num [jsNumOr]

/-- C4 (amended).  The numeric camera fields fall back to their defaults
exactly when the source cell is unparsable as a number **or parses to 0**:
`panDuration` is the parsed value when it is a nonzero number and `7`
otherwise, and `glitchMinMs` / `glitchMaxMs` are the parsed integers when
nonzero and `400` / `1200` otherwise. -/
theorem C4_numeric_fallbacks (e : RawEntry) :
    ((jsParseFloat e.panduration = none ∨ jsParseFloat e.panduration = some 0) →
        (mkCamera e).panDuration = 7)
    ∧ (∀ v, jsParseFloat e.panduration = some v → v ≠ 0 → (mkCamera e).panDuration = v)
    ∧ ((jsParseInt e.glitchminms = none ∨ jsParseInt e.glitchminms = some 0) →
        (mkCamera e).glitchMinMs = 400)
    ∧ (∀ v, jsParseInt e.glitchminms = some v → v ≠ 0 → (mkCamera e).glitchMinMs = v)
    ∧ ((jsParseInt e.glitchmaxms = none ∨ jsParseInt e.glitchmaxms = some 0) →
        (mkCamera e).glitchMaxMs = 1200)
    ∧ (∀ v, jsParseInt e.glitchmaxms = some v → v ≠ 0 → (mkCamera e).glitchMaxMs = v) := by
  refine ⟨?_, ?_, ?_, ?_, ?_, ?_⟩
  · rintro (hn | h0)
    · simp [mkCamera, jsNumOr, hn]
    · simp [mkCamera, jsNumOr, h0]
  · intro v hv hne
    simp [mkCamera, jsNumOr, hv, hne]
  · rintro (hn | h0)
    · simp [mkCamera, jsIntOr, hn]
    · simp [mkCamera, jsIntOr, h0]
  · intro v hv hne
    simp [mkCamera, jsIntOr, hv, hne]
  · rintro (hn | h0)
    · simp [mkCamera, jsIntOr, hn]
    · simp [mkCamera, jsIntOr, h0]
  · intro v hv hne
    simp [mkCamera, jsIntOr, hv, hne]

/-- Witness for C4 on a row with a parsable nonzero `panDuration` cell,
a parsable nonzero `glitchMinMs` cell, and an unparsable `glitchMaxMs`
cell. -/
theorem C4_numeric_fallbacks_witness :
    jsParseFloat "7.5" = some (15 / 2) ∧ (15 / 2 : ℚ) ≠ 0
    ∧ (mkCamera plainEntry).panDuration = 15 / 2
    ∧ jsParseInt "650" = some 650 ∧ (650 : ℤ) ≠ 0
    ∧ (mkCamera plainEntry).glitchMinMs = 650
    ∧ jsParseInt "abc" = none
    ∧ (mkCamera plainEntry).glitchMaxMs = 1200 := by
  have hf : jsParseFloat "7.5" = some (15 / 2) := by
    simp +decide [jsParseFloat, takeDigits, splitSign, digitsToNat]
    norm_num
  have hmin : jsParseInt "650" = some 650 := by decide
  have habc : jsParseInt "abc" = none := by decide
  refine ⟨hf, by norm_num, ?_, hmin, by decide, ?_, habc, ?_⟩
  · exact (C4_numeric_fallbacks plainEntry).2.1 (15 / 2) hf (by norm_num)
  · exact (C4_numeric_fallbacks plainEntry).2.2.2.1 650 hmin (by decide)
  · exact (C4_numeric_fallbacks plainEntry).2.2.2.2.1 (Or.inl habc)

/-! ## C5: which statuses start which effects -/

/-- C5.  Selecting a valid camera starts the glitch scheduler exactly when
its status is FLICKER, INTERFERENCE or LOST SIGNAL; for ONLINE or OFFLINE
the glitch timer ends up cleared, and an OFFLINE camera also ends up with no
noise-animation frame requested. -/
theorem C5_status_effects (cams : String → Option Camera) (id : String) (r : ℚ)
    (st : Session) (cam : Camera) (h : cams id = some cam) :
    ((loadScene cams id r st).glitchTimer.isSome
        ↔ (cam.status = "FLICKER" ∨ cam.status = "INTERFERENCE"
            ∨ cam.status = "LOST SIGNAL"))
    ∧ (cam.status = "ONLINE" ∨ cam.status = "OFFLINE"
        → (loadScene cams id r st).glitchTimer = none)
    ∧ (cam.status = "OFFLINE"
        → (loadScene cams id r st).lostSignalAnimationId = none) := by
  unfold loadScene
  rw [h]
  have hiff : ∀ s : Session, ((applyGlitchPolicy cam r s).glitchTimer.isSome
      ↔ (cam.status = "FLICKER" ∨ cam.status = "INTERFERENCE"
          ∨ cam.status = "LOST SIGNAL")) := by
    intro s
    rw [applyGlitchPolicy_glitchTimer_isSome]
    simp
  refine ⟨hiff _, ?_, ?_⟩
  · intro hoo
    rw [← Option.not_isSome_iff_eq_none]
    rw [hiff _]
    rcases hoo with hs | hs <;> rw [hs] <;> decide
  · intro hoff
    rw [applyGlitchPolicy_anim, resetPanState_anim]
    show (mountPresentation cam _).lostSignalAnimationId = none
    rw [mountPresentation_not_lost cam _ (by rw [hoff]; decide)]
    show (stopLostSignalEffect _).lostSignalAnimationId = none
    exact stopLostSignalEffect_anim _

/-- Witness for C5: the FLICKER demo camera yields a scheduled glitch, and
the OFFLINE demo camera yields neither glitch nor noise loop. -/
theorem C5_status_effects_witness :
    demoRegistry "cam-fl" = some demoFlicker
    ∧ demoFlicker.status = "FLICKER"
    ∧ (loadScene demoRegistry "cam-fl" (1/2) startSession).glitchTimer.isSome
    ∧ demoRegistry "cam-off" = some demoOffline
    ∧ (loadScene demoRegistry "cam-off" (1/2) startSession).glitchTimer = none
    ∧ (loadScene demoRegistry "cam-off" (1/2) startSession).lostSignalAnimationId
        = none := by
  refine ⟨by decide, by decide, ?_, by decide, ?_, ?_⟩
  · exact (C5_status_effects demoRegistry "cam-fl" (1/2) startSession demoFlicker
      (by decide)).1.mpr (Or.inl (by decide))
  · exact (C5_status_effects demoRegistry "cam-off" (1/2) startSession demoOffline
      (by decide)).2.1 (Or.inr (by decide))
  · exact (C5_status_effects demoRegistry "cam-off" (1/2) startSession demoOffline
      (by decide)).2.2 (by decide)

/-! ## C9: pan state reset and toggling -/

/-- C9.  Selecting any pan-enabled camera resets the pan state: the
pan-paused flag is `false`, the button reads `PAUSE PAN`, and (whenever a
media element was mounted, i.e. for any non-LOST-SIGNAL status) the mounted
pan node's play state is `running`.  One subsequent toggle sets the flag,
relabels the button `RESUME PAN`, and sets the play state of the mounted
node to `paused`; and every toggle flips the paused/running boolean. -/
theorem C9_pan_toggle (cams : String → Option Camera) (id : String) (r : ℚ)
    (st : Session) (cam : Camera) (h : cams id = some cam)
    (hpan : cam.panEnabled = true) :
    ((loadScene cams id r st).panPaused = false)
    ∧ ((loadScene cams id r st).toggleLabel = "PAUSE PAN")
    ∧ (cam.status ≠ "LOST SIGNAL"
        → (loadScene cams id r st).panNode = some (mountMedia cam)
          ∧ (loadScene cams id r st).panPlayState = "running")
    ∧ ((togglePan (loadScene cams id r st)).panPaused = true)
    ∧ ((togglePan (loadScene cams id r st)).toggleLabel = "RESUME PAN")
    ∧ (cam.status ≠ "LOST SIGNAL"
        → (togglePan (loadScene cams id r st)).panPlayState = "paused")
    ∧ (∀ s : Session, (togglePan s).panPaused = !s.panPaused) := by
  have hload : (loadScene cams id r st).panPaused = false := by
    unfold loadScene
    rw [h]
    rw [applyGlitchPolicy_panPaused, resetPanState_panPaused]
  have hlabel : (loadScene cams id r st).toggleLabel = "PAUSE PAN" := by
    unfold loadScene
    rw [h]
    rw [applyGlitchPolicy_toggleLabel, resetPanState_toggleLabel]
  have hnode : cam.status ≠ "LOST SIGNAL"
      → (loadScene cams id r st).panNode = some (mountMedia cam)
        ∧ (loadScene cams id r st).panPlayState = "running" := by
    intro hnl
    unfold loadScene
    rw [h]
    constructor
    · rw [applyGlitchPolicy_panNode, resetPanState_panNode]
      show (setLabels cam (mountPresentation cam _)).panNode = _
      rw [mountPresentation_not_lost cam _ hnl]
      rfl
    · rw [applyGlitchPolicy_panPlayState]
      apply resetPanState_panPlayState_on cam _ _ hpan
      show (setLabels cam (mountPresentation cam _)).panNode.isSome = true
      rw [mountPresentation_not_lost cam _ hnl]
      rfl
  refine ⟨hload, hlabel, hnode, ?_, ?_, ?_, fun s => togglePan_panPaused s⟩
  · rw [togglePan_panPaused, hload]
    rfl
  · rw [togglePan_toggleLabel, hload]
    rfl
  · intro hnl
    have hsome : (loadScene cams id r st).panNode.isSome = true := by
      rw [(hnode hnl).1]
      rfl
    rw [togglePan_panPlayState_some _ hsome, hload]
    rfl

/-- Witness for C9 on the pan-enabled ONLINE demo camera. -/
theorem C9_pan_toggle_witness :
    demoRegistry "cam-1" = some demoCam
    ∧ demoCam.panEnabled = true
    ∧ (loadScene demoRegistry "cam-1" (1/2) startSession).panPaused = false
    ∧ (togglePan (loadScene demoRegistry "cam-1" (1/2) startSession)).panPaused = true
    ∧ (togglePan (loadScene demoRegistry "cam-1" (1/2) startSession)).toggleLabel
        = "RESUME PAN"
    ∧ (togglePan (loadScene demoRegistry "cam-1" (1/2) startSession)).panPlayState
        = "paused" := by
  have hc := C9_pan_toggle demoRegistry "cam-1" (1/2) startSession demoCam
    (by decide) (by decide)
  exact ⟨by decide, by decide, hc.1, hc.2.2.2.1, hc.2.2.2.2.1,
    hc.2.2.2.2.2.1 (by decide)⟩

/-! ## C10: empty media URL falls back to the placeholder image -/

/-- C10.  Selecting a camera whose status is not LOST SIGNAL and whose media
URL is empty mounts exactly one presentation: an image element whose source
is the `NO CAMERA FEED` placeholder URL. -/
theorem C10_empty_url_placeholder (cams : String → Option Camera) (id : String)
    (r : ℚ) (st : Session) (cam : Camera) (h : cams id = some cam)
    (hnl : cam.status ≠ "LOST SIGNAL") (hurl : cam.imageUrl = "") :
    (loadScene cams id r st).view
      = [Media.image placeholderNoFeed cam.location
          (if cam.panEnabled then some cam.panDuration else none)] := by
  unfold loadScene
  rw [h]
  rw [applyGlitchPolicy_view, resetPanState_view]
  show (setLabels cam (mountPresentation cam _)).view = _
  rw [mountPresentation_not_lost cam _ hnl]
  show ([] : List Media) ++ [mountMedia cam] = _
  rw [List.nil_append]
  unfold mountMedia
  rw [if_neg (by simp [isVideoUrl, hurl]), if_pos hurl]

/-- Witness for C10 on the ONLINE demo camera, whose media URL is empty. -/
theorem C10_empty_url_placeholder_witness :
    demoRegistry "cam-1" = some demoCam
    ∧ demoCam.status ≠ "LOST SIGNAL"
    ∧ demoCam.imageUrl = ""
    ∧ (loadScene demoRegistry "cam-1" (1/2) startSession).view
        = [Media.image placeholderNoFeed "A-03 CORRIDOR (MAIN)" (some 7)] := by
  refine ⟨by decide, by decide, by decide, ?_⟩
  have hc := C10_empty_url_placeholder demoRegistry "cam-1" (1/2) startSession
    demoCam (by decide) (by decide) (by decide)
  rw [hc]
  rfl

/-! ## Pointwise lemmas about the noise buffer -/

lemma renderList_length (w h : ℕ) (f : FrameF) :
    (renderList w h f).length = w * h * 4 := by
  simp [renderList]

lemma renderList_getD (w h : ℕ) (f : FrameF) (i : ℕ) (hi : i < w * h * 4) :
    (renderList w h f).getD i 0 = f i := by
  unfold renderList
  rw [List.getD_eq_getElem?_getD, List.getElem?_map, List.getElem?_range hi]
  rfl

lemma renderListQ_length (w h : ℕ) (f : FrameQ) :
    (renderListQ w h f).length = w * h * 4 := by
  simp [renderListQ]

lemma renderListQ_getD (w h : ℕ) (f : FrameQ) (i : ℕ) (hi : i < w * h * 4) :
    (renderListQ w h f).getD i 0 = f i := by
  unfold renderListQ
  rw [List.getD_eq_getElem?_getD, List.getElem?_map, List.getElem?_range hi]
  rfl

lemma roundTiesEven_between (x : ℚ) :
    ⌊x⌋ ≤ roundTiesEven x ∧ roundTiesEven x ≤ ⌊x⌋ + 1 := by
  unfold roundTiesEven
  split_ifs <;> omega

lemma clamp8_eq_round (x : ℚ) (h0 : 0 < x) (h255 : x < 255) :
    clamp8 x = roundTiesEven x := by
  unfold clamp8
  rw [if_neg (not_le.mpr h0), if_neg (not_le.mpr h255)]

lemma clamp8_255 : clamp8 (255 : ℚ) = 255 := by
  norm_num [clamp8]

lemma clamp8_intCast (n : ℤ) (h0 : 0 ≤ n) (h255 : n ≤ 255) :
    clamp8 ((n : ℤ) : ℚ) = n := by
  unfold clamp8
  by_cases hz : ((n : ℤ) : ℚ) ≤ 0
  · have hn : n = 0 := le_antisymm (by exact_mod_cast hz) h0
    rw [if_pos hz, hn]
  · rw [if_neg hz]
    by_cases h2 : (255 : ℚ) ≤ ((n : ℤ) : ℚ)
    · have hn : n = 255 := le_antisymm h255 (by exact_mod_cast h2)
      rw [if_pos h2, hn]
    · rw [if_neg h2]
      unfold roundTiesEven
      rw [Int.floor_intCast]
      rw [if_pos (by norm_num)]

lemma clamp8_eval_lt_half (x : ℚ) (n : ℤ) (h0 : 0 < x) (h255 : x < 255)
    (hfl : (n : ℚ) ≤ x) (hfu : x < n + 1) (hh : x - n < 1/2) : clamp8 x = n := by
  have hf : ⌊x⌋ = n := by
    rw [Int.floor_eq_iff]
    exact ⟨hfl, hfu⟩
  rw [clamp8_eq_round x h0 h255]
  unfold roundTiesEven
  rw [hf, if_pos (by linarith)]

lemma clamp8_eval_gt_half (x : ℚ) (n : ℤ) (h0 : 0 < x) (h255 : x < 255)
    (hfl : (n : ℚ) ≤ x) (hfu : x < n + 1) (hh : 1/2 < x - n) : clamp8 x = n + 1 := by
  have hf : ⌊x⌋ = n := by
    rw [Int.floor_eq_iff]
    exact ⟨hfl, hfu⟩
  rw [clamp8_eq_round x h0 h255]
  unfold roundTiesEven
  rw [hf, if_neg (by linarith), if_pos (by linarith)]

lemma blendQ_length (cur prev : List ℤ) :
    (blendQ cur prev).length = cur.length := by
  simp [blendQ]

lemma blendQ_getD (cur prev : List ℤ) (i : ℕ) (hi : i < cur.length) :
    (blendQ cur prev).getD i 0
      = if i % 4 ≤ 2
        then clamp8 ((cur.getD i 0 : ℚ) * (1 - blendFactor)
            + (prev.getD i 0 : ℚ) * blendFactor)
        else cur.getD i 0 := by
  unfold blendQ
  rw [List.getD_eq_getElem?_getD, List.getElem?_map, List.getElem?_range hi]
  rfl

lemma curFrameQ_length (w h : ℕ) (rs : ℕ → ℚ) (pts : List (ℕ × ℕ)) (bandY : ℤ) :
    (curFrameQ w h rs pts bandY).length = w * h * 4 :=
  renderListQ_length w h _

lemma renderedOutQ_length (w h : ℕ) (rs sp : ℕ → ℚ) (bandY : ℤ)
    (prev : Option (List ℤ)) :
    (renderedOutQ w h rs sp bandY prev).length = w * h * 4 := by
  unfold renderedOutQ
  cases prev with
  | none => exact curFrameQ_length w h _ _ _
  | some p =>
    dsimp only
    split_ifs
    · rw [blendQ_length]
      exact curFrameQ_length w h _ _ _
    · exact curFrameQ_length w h _ _ _

lemma curFrameQ_alpha (w h : ℕ) (rs : ℕ → ℚ) (pts : List (ℕ × ℕ)) (bandY : ℤ)
    (i : ℕ) (hi : i < w * h * 4) (ha : i % 4 = 3) :
    (curFrameQ w h rs pts bandY).getD i 0 = 255 := by
  unfold curFrameQ
  rw [renderListQ_getD _ _ _ _ hi]
  simp [speckleQ, bandQ, baseQ, ha, clamp8_255]

lemma renderedOutQ_alpha (w h : ℕ) (rs sp : ℕ → ℚ) (bandY : ℤ)
    (prev : Option (List ℤ)) (i : ℕ) (hi : i < w * h * 4) (ha : i % 4 = 3) :
    (renderedOutQ w h rs sp bandY prev).getD i 0 = 255 := by
  unfold renderedOutQ
  cases prev with
  | none => exact curFrameQ_alpha w h _ _ _ i hi ha
  | some p =>
    dsimp only
    split_ifs with hl
    · rw [blendQ_getD _ _ _ (by rw [curFrameQ_length]; exact hi)]
      rw [if_neg (by omega)]
      exact curFrameQ_alpha w h _ _ _ i hi ha
    · exact curFrameQ_alpha w h _ _ _ i hi ha

lemma jsMod_bounds (a b : ℚ) (hb : 0 < b) : 0 ≤ jsMod a b ∧ jsMod a b < b := by
  have he : jsMod a b = b * Int.fract (a / b) := by
    unfold jsMod Int.fract
    rw [mul_sub, mul_div_cancel₀ _ (ne_of_gt hb)]
  rw [he]
  constructor
  · exact mul_nonneg hb.le (Int.fract_nonneg _)
  · have h1 : b * Int.fract (a / b) < b * 1 :=
      mul_lt_mul_of_pos_left (Int.fract_lt_one _) hb
    simpa using h1

/-! ## C6: temporal blending against the previous rendered frame -/

/-- C6 counterexample.  The blended value is stored into a
`Uint8ClampedArray`, which rounds it to an integer, so the stored channel
does not equal the exact blend.  Concretely on a 1×1 buffer: the first
rendered frame holds channel value 150 (base 140, band +10), the next
frame's pre-blend value is 111 (base 101, band +10), and the program stores
`round(111*0.15 + 150*0.85) = round(144.15) = 144 ≠ 144.15`. -/
theorem C6_exact_blend_counterexample :
    (renderedOutQ 1 1 (fun _ => 40/70) (fun _ => 0) 0 none).getD 0 0 = 150
    ∧ (curFrameQ 1 1 (fun _ => 1/70) (specklePts 1 1 (fun _ => 0)) 0).getD 0 0 = 111
    ∧ (renderedOutQ 1 1 (fun _ => 1/70) (fun _ => 0) 0
        (some (renderedOutQ 1 1 (fun _ => 40/70) (fun _ => 0) 0 none))).getD 0 0 = 144
    ∧ ((144 : ℚ) ≠ (111 : ℚ) * (1 - blendFactor) + (150 : ℚ) * blendFactor) := by
  have hsp : specklePts 1 1 (fun _ => (0 : ℚ)) = [] := by
    unfold specklePts
    rw [show ⌊((1 : ℕ) : ℚ) * ((1 : ℕ) : ℚ) * (0.002 : ℚ)⌋ = 0 from by
      rw [Int.floor_eq_iff]
      push_cast
      norm_num]
    rfl
  have hchan : ∀ r : ℚ, ∀ n : ℤ, 0 ≤ n → n ≤ 245 → (100 : ℚ) + r * 70 = (n : ℚ) →
      (curFrameQ 1 1 (fun _ => r) (specklePts 1 1 (fun _ => 0)) 0).getD 0 0 = n + 10 := by
    intro r n hn0 hn245 hbase
    unfold curFrameQ
    rw [renderListQ_getD _ _ _ _ (by norm_num), hsp]
    show (speckleQ 1 [] (bandQ 1 0 (baseQ fun _ => r))) 0 = n + 10
    unfold speckleQ
    rw [if_neg (by simp)]
    unfold bandQ
    rw [if_pos (by refine ⟨by norm_num, by norm_num, by norm_num⟩)]
    show clamp8 ((min 255 ((baseQ fun _ => r) 0 + 10) : ℤ) : ℚ) = n + 10
    unfold baseQ
    rw [if_neg (by norm_num)]
    show clamp8 ((min 255 (clamp8 (100 + r * 70) + 10) : ℤ) : ℚ) = n + 10
    rw [hbase, clamp8_intCast n hn0 (by omega)]
    rw [show min 255 (n + 10) = n + 10 from by omega]
    exact clamp8_intCast (n + 10) (by omega) (by omega)
  have hf1 : (renderedOutQ 1 1 (fun _ => (40 : ℚ)/70) (fun _ => 0) 0 none).getD 0 0
      = 150 := by
    show (curFrameQ 1 1 (fun _ => (40 : ℚ)/70) (specklePts 1 1 (fun _ => 0)) 0).getD 0 0
      = 150
    have := hchan (40/70) 140 (by norm_num) (by norm_num) (by norm_num)
    simpa using this
  have hcur : (curFrameQ 1 1 (fun _ => (1 : ℚ)/70) (specklePts 1 1 (fun _ => 0)) 0).getD
      0 0 = 111 := by
    have := hchan (1/70) 101 (by norm_num) (by norm_num) (by norm_num)
    simpa using this
  refine ⟨hf1, hcur, ?_, by norm_num [blendFactor]⟩
  obtain ⟨p1, hp1⟩ : ∃ p1, p1 = renderedOutQ 1 1 (fun _ => (40 : ℚ)/70) (fun _ => 0) 0 none :=
    ⟨_, rfl⟩
  rw [← hp1]
  have hlen : p1.length
      = (curFrameQ 1 1 (fun _ => (1 : ℚ)/70) (specklePts 1 1 (fun _ => 0)) 0).length := by
    rw [hp1, renderedOutQ_length, curFrameQ_length]
  unfold renderedOutQ
  dsimp only
  rw [if_pos hlen]
  rw [blendQ_getD _ _ _ (by rw [curFrameQ_length]; norm_num)]
  rw [if_pos (by norm_num), hcur, hp1, hf1]
  rw [show ((111 : ℤ) : ℚ) * (1 - blendFactor) + ((150 : ℤ) : ℚ) * blendFactor
      = 2883/20 from by norm_num [blendFactor]]
  exact clamp8_eval_lt_half (2883/20) 144 (by norm_num) (by norm_num) (by norm_num)
    (by norm_num) (by norm_num)

/-- C6 (amended).  In the static noise generator: the first rendered frame
(no stored previous frame) is the unblended current frame; when the
previous rendered frame `p` exists — `p` is any output of the renderer,
hence byte-quantised — every channel value written to the buffer, alpha
included, is the `Uint8ClampedArray` store of `cur*(1-0.85) + p*0.85`
(the exact per-channel blend, clamped to `[0,255]` and rounded to the
nearest integer, ties to even); and restarting the effect resets the
generator closure to a fresh state with no stored previous frame, so the
first frame after a restart is again unblended. -/
theorem C6_quantized_blend (w h : ℕ) (rs sp rs0 sp0 : ℕ → ℚ) (bandY bandY0 : ℤ)
    (q : Option (List ℤ)) (p : List ℤ)
    (hp : p = renderedOutQ w h rs0 sp0 bandY0 q) (st : Session) :
    (renderedOutQ w h rs sp bandY none = curFrameQ w h rs (specklePts w h sp) bandY)
    ∧ (∀ i, i < w * h * 4 →
        (renderedOutQ w h rs sp bandY (some p)).getD i 0
          = clamp8 (((curFrameQ w h rs (specklePts w h sp) bandY).getD i 0 : ℚ)
                * (1 - blendFactor)
              + (p.getD i 0 : ℚ) * blendFactor))
    ∧ (startLostSignalEffect st).noise = NoiseState.start
    ∧ NoiseState.start.prev = none := by
  refine ⟨rfl, ?_, rfl, rfl⟩
  intro i hi
  have hlen : p.length = (curFrameQ w h rs (specklePts w h sp) bandY).length := by
    rw [hp, renderedOutQ_length, curFrameQ_length]
  unfold renderedOutQ
  dsimp only
  rw [if_pos hlen]
  rw [blendQ_getD _ _ _ (by rw [curFrameQ_length]; exact hi)]
  by_cases hc3 : i % 4 ≤ 2
  · rw [if_pos hc3]
  · rw [if_neg hc3]
    have ha : i % 4 = 3 := by omega
    have hcur : (curFrameQ w h rs (specklePts w h sp) bandY).getD i 0 = 255 :=
      curFrameQ_alpha w h _ _ _ i hi ha
    have hpa : p.getD i 0 = 255 := by
      rw [hp]
      exact renderedOutQ_alpha w h _ _ _ _ i hi ha
    rw [hcur, hpa]
    rw [show ((255 : ℤ) : ℚ) * (1 - blendFactor) + ((255 : ℤ) : ℚ) * blendFactor
        = 255 from by push_cast; ring]
    rw [clamp8_255]

/-- Witness for the amended C6 on a 1×1 buffer with constant random
streams. -/
theorem C6_quantized_blend_witness :
    (renderedOutQ 1 1 halfStream halfStream 0 none
        = curFrameQ 1 1 halfStream (specklePts 1 1 halfStream) 0)
    ∧ (0 : ℕ) < 1 * 1 * 4
    ∧ (renderedOutQ 1 1 halfStream halfStream 0
          (some (renderedOutQ 1 1 halfStream halfStream 0 none))).getD 0 0
        = clamp8 (((curFrameQ 1 1 halfStream (specklePts 1 1 halfStream) 0).getD 0 0 : ℚ)
              * (1 - blendFactor)
            + ((renderedOutQ 1 1 halfStream halfStream 0 none).getD 0 0 : ℚ)
              * blendFactor)
    ∧ (startLostSignalEffect startSession).noise = NoiseState.start := by
  have hc := C6_quantized_blend 1 1 halfStream halfStream halfStream halfStream 0 0
    none (renderedOutQ 1 1 halfStream halfStream 0 none) rfl startSession
  exact ⟨hc.1, by norm_num, hc.2.1 0 (by norm_num), hc.2.2.1⟩

/-! ## C7: the base static pass -/

/-- C7 counterexample.  The base value is stored into a `Uint8ClampedArray`,
which rounds it: for the draw `r = 199/200` the base is
`100 + 0.995*70 = 169.65`, and the buffer stores `round(169.65) = 170` —
outside the claimed half-open range `[100, 170)` and different from the
claimed exact stored value `100 + r*70`. -/
theorem C7_open_range_counterexample :
    (0 : ℚ) ≤ 199/200 ∧ (199/200 : ℚ) < 1
    ∧ (renderListQ 1 1 (baseQ (fun _ => 199/200))).getD 0 0 = 170
    ∧ ¬ ((renderListQ 1 1 (baseQ (fun _ => 199/200))).getD 0 0 < 170)
    ∧ (((renderListQ 1 1 (baseQ (fun _ => 199/200))).getD 0 0 : ℚ)
        ≠ 100 + (199/200 : ℚ) * 70) := by
  have hval : (renderListQ 1 1 (baseQ (fun _ => (199 : ℚ)/200))).getD 0 0 = 170 := by
    rw [renderListQ_getD _ _ _ _ (by norm_num)]
    show (if 0 % 4 = 3 then clamp8 255 else clamp8 (100 + (199 : ℚ)/200 * 70)) = 170
    rw [if_neg (by norm_num)]
    rw [show (100 : ℚ) + 199/200 * 70 = 3393/20 from by norm_num]
    have := clamp8_eval_gt_half (3393/20) 169 (by norm_num) (by norm_num) (by norm_num)
      (by norm_num) (by norm_num)
    simpa using this
  refine ⟨by norm_num, by norm_num, hval, ?_, ?_⟩
  · rw [hval]
    omega
  · rw [hval]
    norm_num

/-- C7 (amended).  After the base static pass of a rendered frame — before
the band, speckle and blend passes — every pixel `p` of the low-res buffer
holds the `Uint8ClampedArray` store of the grayscale value
`100 + random*70`, i.e. that value rounded to the nearest integer (ties to
even), which lies in the closed range `[100, 170]`; the same stored value
sits in all three color channels and the alpha channel is fully opaque. -/
theorem C7_quantized_base_static (w h : ℕ) (rs : ℕ → ℚ)
    (hrs : ∀ n, 0 ≤ rs n ∧ rs n < 1) (p : ℕ) (hp : p < w * h) :
    (renderListQ w h (baseQ rs)).getD (4 * p) 0 = clamp8 (100 + rs p * 70)
    ∧ (renderListQ w h (baseQ rs)).getD (4 * p + 1) 0 = clamp8 (100 + rs p * 70)
    ∧ (renderListQ w h (baseQ rs)).getD (4 * p + 2) 0 = clamp8 (100 + rs p * 70)
    ∧ 100 ≤ clamp8 (100 + rs p * 70)
    ∧ clamp8 (100 + rs p * 70) ≤ 170
    ∧ (renderListQ w h (baseQ rs)).getD (4 * p + 3) 0 = 255 := by
  obtain ⟨hr0, hr1⟩ := hrs p
  have hb1 : (100 : ℚ) ≤ 100 + rs p * 70 := by
    nlinarith [mul_nonneg hr0 (show (0:ℚ) ≤ 70 by norm_num)]
  have hb2 : (100 : ℚ) + rs p * 70 < 170 := by
    nlinarith [mul_lt_mul_of_pos_right hr1 (show (0:ℚ) < 70 by norm_num)]
  have hlt : ∀ c, c < 4 → 4 * p + c < w * h * 4 := by omega
  have hch : ∀ c, c < 3 → (renderListQ w h (baseQ rs)).getD (4 * p + c) 0
      = clamp8 (100 + rs p * 70) := by
    intro c hc
    rw [renderListQ_getD _ _ _ _ (hlt c (by omega))]
    unfold baseQ
    have hm : (4 * p + c) % 4 = c := by omega
    have hd : (4 * p + c) / 4 = p := by omega
    rw [hm, hd, if_neg (by omega)]
  have hrd := roundTiesEven_between (100 + rs p * 70)
  have hfl : (100 : ℤ) ≤ ⌊(100 : ℚ) + rs p * 70⌋ :=
    Int.le_floor.mpr (by push_cast; linarith)
  have hfu : ⌊(100 : ℚ) + rs p * 70⌋ < (170 : ℤ) :=
    Int.floor_lt.mpr (by push_cast; linarith)
  have hcl : clamp8 (100 + rs p * 70) = roundTiesEven (100 + rs p * 70) :=
    clamp8_eq_round _ (by linarith) (by linarith)
  refine ⟨by simpa using hch 0 (by omega), hch 1 (by omega), hch 2 (by omega),
    ?_, ?_, ?_⟩
  · rw [hcl]
    omega
  · rw [hcl]
    omega
  · rw [renderListQ_getD _ _ _ _ (hlt 3 (by omega))]
    unfold baseQ
    have hm3 : (4 * p + 3) % 4 = 3 := by omega
    rw [hm3, if_pos rfl, clamp8_255]

/-- Witness for the amended C7 on a 1×1 buffer with the constant random
stream 1/2. -/
theorem C7_quantized_base_static_witness :
    (0 : ℚ) ≤ halfStream 0 ∧ halfStream 0 < 1 ∧ (0 : ℕ) < 1 * 1
    ∧ (renderListQ 1 1 (baseQ halfStream)).getD 0 0
        = clamp8 (100 + halfStream 0 * 70)
    ∧ 100 ≤ clamp8 (100 + halfStream 0 * 70)
    ∧ clamp8 (100 + halfStream 0 * 70) ≤ 170
    ∧ (renderListQ 1 1 (baseQ halfStream)).getD 3 0 = 255 := by
  have hc := C7_quantized_base_static 1 1 halfStream
    (fun n => ⟨by norm_num [halfStream], by norm_num [halfStream]⟩) 0 (by norm_num)
  exact ⟨by norm_num [halfStream], by norm_num [halfStream], by norm_num,
    hc.1, hc.2.2.2.1, hc.2.2.2.2.1, hc.2.2.2.2.2⟩

/-! ## C8: the drifting luminance band -/

/-- C8.  In every rendered frame the luminance band sits at vertical
position `⌊(t*20) mod h⌋` (a valid row of the buffer): each color channel
of each pixel whose row lies in the 6-row window `[bandY-3, bandY+3)` gets
`+10`, clamped at 255 by `min`; color channels of pixels outside the window,
and every alpha channel, are unchanged by the band pass. -/
theorem C8_luminance_band (w h : ℕ) (hh : 0 < h) (t : ℚ) (_ht : 0 ≤ t)
    (f : FrameF) (x y c : ℕ) (hx : x < w) (hy : y < h) (hc : c < 3) :
    0 ≤ bandCenter t h
    ∧ bandCenter t h < (h : ℤ)
    ∧ (renderList w h (bandF w (bandCenter t h) f)).getD ((y * w + x) * 4 + c) 0
        = (if bandCenter t h - 3 ≤ (y : ℤ) ∧ (y : ℤ) < bandCenter t h + 3
           then min 255 (f ((y * w + x) * 4 + c) + 10)
           else f ((y * w + x) * 4 + c))
    ∧ (renderList w h (bandF w (bandCenter t h) f)).getD ((y * w + x) * 4 + 3) 0
        = f ((y * w + x) * 4 + 3) := by
  have hmod := jsMod_bounds (t * 20) (h : ℚ) (by exact_mod_cast hh)
  have hc0 : 0 ≤ bandCenter t h := by
    unfold bandCenter
    exact Int.le_floor.mpr (by exact_mod_cast hmod.1)
  have hch : bandCenter t h < (h : ℤ) := by
    unfold bandCenter
    exact Int.floor_lt.mpr (by exact_mod_cast hmod.2)
  have hpix : y * w + x < w * h := by
    calc y * w + x < y * w + w := by omega
    _ = (y + 1) * w := by ring
    _ ≤ h * w := Nat.mul_le_mul_right w hy
    _ = w * h := Nat.mul_comm h w
  have hi : (y * w + x) * 4 + c < w * h * 4 := by omega
  have hi3 : (y * w + x) * 4 + 3 < w * h * 4 := by omega
  have hrow : (y * w + x) / w = y := by
    rw [Nat.add_comm (y * w) x]
    rw [Nat.add_mul_div_right _ _ (Nat.pos_of_ne_zero (by omega))]
    rw [Nat.div_eq_of_lt hx]
    omega
  refine ⟨hc0, hch, ?_, ?_⟩
  · rw [renderList_getD _ _ _ _ hi]
    unfold bandF
    have hm : ((y * w + x) * 4 + c) % 4 = c := by omega
    have hd : ((y * w + x) * 4 + c) / 4 = y * w + x := by omega
    rw [hm, hd, hrow]
    by_cases hband : bandCenter t h - 3 ≤ (y : ℤ) ∧ (y : ℤ) < bandCenter t h + 3
    · rw [if_pos ⟨by omega, hband.1, hband.2⟩, if_pos hband]
    · rw [if_neg (fun hcond => hband ⟨hcond.2.1, hcond.2.2⟩), if_neg hband]
  · rw [renderList_getD _ _ _ _ hi3]
    unfold bandF
    have hm3 : ((y * w + x) * 4 + 3) % 4 = 3 := by omega
    rw [hm3, if_neg (fun hcond => by omega)]

/-- Witness for C8 on a 1×1 buffer at `t = 0` over the zero frame. -/
theorem C8_luminance_band_witness :
    (0 : ℕ) < 1 ∧ (0 : ℚ) ≤ 0
    ∧ (0 ≤ bandCenter 0 1
      ∧ bandCenter 0 1 < ((1 : ℕ) : ℤ)
      ∧ (renderList 1 1 (bandF 1 (bandCenter 0 1) (fun _ => (0 : ℚ)))).getD 0 0
          = (if bandCenter 0 1 - 3 ≤ ((0 : ℕ) : ℤ) ∧ ((0 : ℕ) : ℤ) < bandCenter 0 1 + 3
             then min 255 ((0 : ℚ) + 10) else (0 : ℚ))
      ∧ (renderList 1 1 (bandF 1 (bandCenter 0 1) (fun _ => (0 : ℚ)))).getD 3 0
          = 0) := by
  have hc := C8_luminance_band 1 1 (by norm_num) 0 (by norm_num) (fun _ => (0 : ℚ))
    0 0 0 (by norm_num) (by norm_num) (by norm_num)
  exact ⟨by norm_num, by norm_num, hc⟩

end MultiCam
